import Mathlib

/-!
Shallow embedding of `packages/continue-js/src/index.ts` (Stevenic/continue-js).

The library keeps two pieces of process-wide state: `_continuations`, a map from
continuation ids to registered functions, and `_config`, the replaceable
configuration.  Functions carry an optional `continuationId` metadata property.
We model function values by natural-number handles into a fixed environment
`env : Nat → UnitDef Ctx Val` giving each function its `name` and its behaviour
`body : Ctx → List Val → Continuation Val` (the awaited result of the async
call).  The mutable metadata property and the registry map live in `LibState`.
JavaScript string truthiness (`undefined` and `""` are falsy) is modelled by
`truthy : Option String → Bool`.  Thrown `Error`s are modelled by the inductive
`JsError`, one constructor per distinct `throw` site, carrying the data that the
source interpolates into the message.  `continueNow` is recursive through the
`functionNotFound` redirect; we make it structural with a fuel parameter
(`JsError.outOfFuel` is not a behaviour of the source, only the model's bound)
and additionally return the trace of observable calls (registered functions and
the not-found policy) so that "invokes exactly once" is expressible.
-/

namespace ContinueJs

/-- `Continuation` record from the source: `done`, optional `continuationId`,
optional `args`.  `Val` is the type of argument values (`any` in the source). -/
structure Continuation (Val : Type) where
  done : Bool
  continuationId : Option String := none
  args : Option (List Val) := none
deriving Repr

/-- JavaScript truthiness of an optional string property:
`undefined` and the empty string are falsy. -/
def truthy : Option String → Bool
  | none => false
  | some s => !s.isEmpty

/-- One `throw` site of the source, carrying the data interpolated into the
thrown `Error` message. -/
inductive JsError where
  /-- canContinue() has already been called for name in file. -/
  | duplicateRegistration (name : String) (file : String)
  /-- canContinue() can't register continuationId because it already exists. -/
  | identifierCollision (continuationId : String)
  /-- continueWith() called with a function that can't be continued. -/
  | unregisteredUnit (name : String)
  /-- continueNow() can't find a continuation function for continuationId. -/
  | continuationNotFound (continuationId : Option String)
  /-- Fuel exhaustion of the model's bound on the redirect recursion
  (not a behaviour of the source). -/
  | outOfFuel
deriving Repr, DecidableEq

/-- A function value that may be registered: its `name` property and its
behaviour (the resolved value of the returned promise). -/
structure UnitDef (Ctx Val : Type) where
  name : String
  body : Ctx → List Val → Continuation Val

/-- `ContinuationConfiguration`: the two replaceable policies.  The
`functionNotFound` policy may throw (modelled by `Except`). -/
structure Config (Ctx Val : Type) where
  getContinuationId : String → String → String
  functionNotFound : Continuation Val → Ctx → Except JsError (Continuation Val)

/-- The default `_config` of the source: ids are `fileName#functionName`, and
the not-found handler throws naming the record's `continuationId`. -/
def defaultConfig (Ctx Val : Type) : Config Ctx Val where
  getContinuationId := fun fileName functionName => fileName ++ "#" ++ functionName
  functionNotFound := fun continuation _ =>
    Except.error (JsError.continuationNotFound continuation.continuationId)

/-- The process-wide mutable state: per-function `continuationId` metadata,
the `_continuations` registry (association list, newest first), and `_config`. -/
structure LibState (Ctx Val : Type) where
  meta : Nat → Option String
  table : List (String × Nat)
  config : Config Ctx Val

/-- The state at process start: no metadata attached, empty registry,
default configuration. -/
def initState (Ctx Val : Type) : LibState Ctx Val where
  meta := fun _ => none
  table := []
  config := defaultConfig Ctx Val

/-- `canContinueWith(fn)`.  The caller's file name is obtained in the source by
walking the call stack; here it is the explicit argument `callerfile`.  The
metadata assignment happens before the registry check, so on an identifier
collision the returned state keeps the freshly attached metadata, exactly as a
JavaScript `throw` after the assignment would.  On success the same function
handle is returned (`return fn`). -/
def canContinueWith {Ctx Val : Type} (env : Nat → UnitDef Ctx Val)
    (st : LibState Ctx Val) (fn : Nat) (callerfile : String) :
    LibState Ctx Val × Except JsError Nat :=
  if truthy (st.meta fn) then
    (st, Except.error (JsError.duplicateRegistration (env fn).name callerfile))
  else
    let newId := st.config.getContinuationId callerfile (env fn).name
    let st1 : LibState Ctx Val :=
      { st with meta := fun v => if v = fn then some newId else st.meta v }
    if (st1.table.lookup newId).isSome then
      (st1, Except.error (JsError.identifierCollision newId))
    else
      ({ st1 with table := (newId, fn) :: st1.table }, Except.ok fn)

/-- `continueWith(fn, ...args)`: requires truthy `continuationId` metadata,
otherwise throws; on success builds the record with the metadata id and the
supplied argument list (the rest parameter is always an array, possibly empty). -/
def continueWith {Ctx Val : Type} (env : Nat → UnitDef Ctx Val)
    (st : LibState Ctx Val) (fn : Nat) (args : List Val) :
    Except JsError (Continuation Val) :=
  if truthy (st.meta fn) then
    Except.ok { done := false, continuationId := st.meta fn, args := some args }
  else
    Except.error (JsError.unregisteredUnit (env fn).name)

/-- `dontContinue()`: the record `\x7b done: true \x7d`. -/
def dontContinue (Val : Type) : Continuation Val :=
  { done := true }

/-- An observable call made during `continueNow`: either a registered function
was applied to `(context, ...args)`, or the configured `functionNotFound`
policy was applied to `(continuation, context)`. -/
inductive Event (Ctx Val : Type) where
  | unitCall (fn : Nat) (ctx : Ctx) (args : List Val)
  | notFoundCall (record : Continuation Val) (ctx : Ctx)

/-- `continueNow(continuation, context)`.  Guard: `!resolved.done &&
resolved.continuationId` (string truthiness).  If the id is found the function
is applied to `context` followed by `resolved.args ?? []` and its result is
returned verbatim; otherwise the `functionNotFound` policy produces a redirect,
returned as-is when `done`, else executed recursively.  The first component is
the trace of observable calls, in order. -/
def continueNow {Ctx Val : Type} (env : Nat → UnitDef Ctx Val)
    (st : LibState Ctx Val) :
    Nat → Continuation Val → Ctx → List (Event Ctx Val) × Except JsError (Continuation Val)
  | 0, _, _ => ([], Except.error JsError.outOfFuel)
  | fuel + 1, resolved, context =>
    if !resolved.done && truthy resolved.continuationId then
      match resolved.continuationId.bind (fun i => st.table.lookup i) with
      | some fn =>
          ([Event.unitCall fn context (resolved.args.getD [])],
           Except.ok ((env fn).body context (resolved.args.getD [])))
      | none =>
          match st.config.functionNotFound resolved context with
          | Except.error e => ([Event.notFoundCall resolved context], Except.error e)
          | Except.ok redirect =>
              if !redirect.done then
                let next := continueNow env st fuel redirect context
                (Event.notFoundCall resolved context :: next.1, next.2)
              else
                ([Event.notFoundCall resolved context], Except.ok redirect)
    else
      ([], Except.ok (dontContinue Val))

/-- A `Partial<ContinuationConfiguration>` override. -/
structure PartialConfig (Ctx Val : Type) where
  getContinuationId : Option (String → String → String) := none
  functionNotFound : Option (Continuation Val → Ctx → Except JsError (Continuation Val)) := none

/-- `configureContinue(config)`: spread-merge the override into `_config`.
The registry and all metadata are untouched. -/
def configureContinue {Ctx Val : Type} (st : LibState Ctx Val)
    (config : PartialConfig Ctx Val) : LibState Ctx Val :=
  { st with config :=
      { getContinuationId := config.getContinuationId.getD st.config.getContinuationId
        functionNotFound := config.functionNotFound.getD st.config.functionNotFound } }

/-- A value of a generic structured-data format (JSON-like): the shape that a
continuation record is persisted through. -/
inductive JValue where
  | null
  | bool (b : Bool)
  | num (n : Int)
  | str (s : String)
  | arr (elems : List JValue)
  | obj (fields : List (String × JValue))

/-- Modelled from the spec: serializing a non-terminal record "to a generic
structured-data format" (the store/reload round trip of the data-model
invariant).  The library contains no serializer of its own — records are plain
flat objects handed to an external store — so each present field of the record
becomes a field of a structured-data object. -/
def serializeContinuation (c : Continuation JValue) : JValue :=
  JValue.obj
    ([("done", JValue.bool c.done)]
      ++ (match c.continuationId with
          | some s => [("continuationId", JValue.str s)]
          | none => [])
      ++ (match c.args with
          | some a => [("args", JValue.arr a)]
          | none => []))

/-- Modelled from the spec: parsing a continuation record back from the
generic structured-data format written by `serializeContinuation`. -/
def parseContinuation (j : JValue) : Option (Continuation JValue) :=
  match j with
  | JValue.obj fields =>
      match fields.lookup "done" with
      | some (JValue.bool d) =>
          some
            { done := d
              continuationId :=
                match fields.lookup "continuationId" with
                | some (JValue.str s) => some s
                | _ => none
              args :=
                match fields.lookup "args" with
                | some (JValue.arr a) => some a
                | _ => none }
      | _ => none
  | _ => none

/-- A sample environment for concrete witnesses: two distinct function values
that share the name `f` (unit `0` produces a terminal record, unit `1` does
not), as two same-named functions declared in different scopes would. -/
def sampleEnv : Nat → UnitDef Nat Nat := fun n =>
  if n = 0 then { name := "f", body := fun _ _ => { done := true } }
  else
    { name := "f"
      body := fun _ args =>
        { done := false, continuationId := some "next", args := some args } }

/-- The state after successfully registering unit `0` from file `a.ts`. -/
def sampleSt : LibState Nat Nat :=
  (canContinueWith sampleEnv (initState Nat Nat) 0 "a.ts").1

def c1rec : Continuation Nat :=
  { done := false, continuationId := sampleSt.meta 0, args := some [7] }

/-- The state after registering unit `0` and then configuring a
`functionNotFound` policy that redirects every missing record to unit `0`'s
identifier. -/
def c2st : LibState Nat Nat :=
  configureContinue sampleSt
    { functionNotFound := some (fun _ _ =>
        Except.ok { done := false, continuationId := sampleSt.meta 0 }) }

/-! ### Helper lemmas -/

/-- One-step unfolding of `continueNow` at positive fuel. -/
theorem continueNow_step {Ctx Val : Type} (env : Nat → UnitDef Ctx Val)
    (st : LibState Ctx Val) (fuel : Nat) (resolved : Continuation Val)
    (context : Ctx) :
    continueNow env st (fuel + 1) resolved context =
      if !resolved.done && truthy resolved.continuationId then
        match resolved.continuationId.bind (fun i => st.table.lookup i) with
        | some fn =>
            ([Event.unitCall fn context (resolved.args.getD [])],
             Except.ok ((env fn).body context (resolved.args.getD [])))
        | none =>
            match st.config.functionNotFound resolved context with
            | Except.error e =>
                ([Event.notFoundCall resolved context], Except.error e)
            | Except.ok redirect =>
                if !redirect.done then
                  (Event.notFoundCall resolved context ::
                     (continueNow env st fuel redirect context).1,
                   (continueNow env st fuel redirect context).2)
                else ([Event.notFoundCall resolved context], Except.ok redirect)
      else ([], Except.ok (dontContinue Val)) := rfl

theorem truthy_some_iff {s : String} : truthy (some s) = true ↔ s ≠ "" := by
  constructor
  · intro ht he
    subst he
    exact absurd ht (by decide)
  · intro hne
    have he : s.isEmpty = false := by
      rcases Bool.eq_false_or_eq_true s.isEmpty with h | h
      · exact absurd ((String.isEmpty_iff s).mp h) hne
      · exact h
    simp [truthy, he]

theorem truthy_none : truthy none = false := rfl

/-- Inversion of a successful registration. -/
theorem canContinueWith_ok {Ctx Val : Type} {env : Nat → UnitDef Ctx Val}
    {st st1 : LibState Ctx Val} {fn v : Nat} {f : String}
    (h : canContinueWith env st fn f = (st1, Except.ok v)) :
    truthy (st.meta fn) = false ∧ v = fn ∧
    st1.meta fn = some (st.config.getContinuationId f (env fn).name) ∧
    st1.table = (st.config.getContinuationId f (env fn).name, fn) :: st.table ∧
    st.table.lookup (st.config.getContinuationId f (env fn).name) = none ∧
    st1.config = st.config ∧
    ∀ w, w ≠ fn → st1.meta w = st.meta w := by
  unfold canContinueWith at h
  by_cases h1 : truthy (st.meta fn) = true
  · simp [h1] at h
  · simp only [Bool.not_eq_true] at h1
    simp only [h1, Bool.false_eq_true, if_false] at h
    by_cases h2 :
        (st.table.lookup (st.config.getContinuationId f (env fn).name)).isSome = true
    · simp [h2] at h
    · simp only [h2, Bool.false_eq_true, if_false, Prod.mk.injEq] at h
      obtain ⟨hst, hv⟩ := h
      cases hv
      refine ⟨h1, rfl, ?_, ?_, ?_, ?_, ?_⟩
      · rw [← hst]; simp
      · rw [← hst]
      · exact Option.not_isSome_iff_eq_none.mp h2
      · rw [← hst]
      · intro w hw; rw [← hst]; simp [hw]

/-- Inversion of a registration that failed with an identifier collision:
the metadata assignment has already happened, the table is unchanged. -/
theorem canContinueWith_collision {Ctx Val : Type} (env : Nat → UnitDef Ctx Val)
    (st : LibState Ctx Val) (fn : Nat) (f : String)
    (h1 : truthy (st.meta fn) = false)
    (h2 : (st.table.lookup (st.config.getContinuationId f (env fn).name)).isSome = true) :
    canContinueWith env st fn f =
      ({ st with meta := fun v =>
           if v = fn then some (st.config.getContinuationId f (env fn).name)
           else st.meta v },
       Except.error (JsError.identifierCollision
         (st.config.getContinuationId f (env fn).name))) := by
  unfold canContinueWith
  simp [h1, h2]

/-- The dispatch step of `continueNow` when the identifier resolves. -/
theorem continueNow_found {Ctx Val : Type} (env : Nat → UnitDef Ctx Val)
    (st : LibState Ctx Val) (c : Continuation Val) (ctx : Ctx) (fn : Nat)
    (id : String) (fuel : Nat)
    (hdone : c.done = false) (hid : c.continuationId = some id) (hne : id ≠ "")
    (hlk : st.table.lookup id = some fn) :
    continueNow env st (fuel + 1) c ctx =
      ([Event.unitCall fn ctx (c.args.getD [])],
       Except.ok ((env fn).body ctx (c.args.getD []))) := by
  unfold continueNow
  rw [hdone, hid]
  simp [truthy_some_iff.mpr hne, hlk]

/-- The guard step of `continueNow`: a done record, or a missing or empty
identifier, yields `dontContinue()` with no observable call. -/
theorem continueNow_terminal {Ctx Val : Type} {env : Nat → UnitDef Ctx Val}
    {st : LibState Ctx Val} {c : Continuation Val} {ctx : Ctx} (fuel : Nat)
    (h : c.done = true ∨ truthy c.continuationId = false) :
    continueNow env st (fuel + 1) c ctx = ([], Except.ok (dontContinue Val)) := by
  unfold continueNow
  rcases h with h | h
  · rw [h]; simp
  · rw [h]; simp

/-! ### Claims -/

/-- **C1**: for every unit successfully registered with `canContinueWith` and
every argument list, `continueWith` followed by `continueNow` with a context
invokes the unit exactly once, with the context as first argument followed by
the arguments (and with the empty sequence when the record's `args` field is
absent), and returns the unit's returned record verbatim, with no merging or
accumulation of arguments. -/
theorem claim1_register_build_execute {Ctx Val : Type} (env : Nat → UnitDef Ctx Val)
    (st st1 : LibState Ctx Val) (u : Nat) (f : String) (args : List Val)
    (cont : Continuation Val) (ctx : Ctx) (fuel : Nat)
    (hreg : canContinueWith env st u f = (st1, Except.ok u))
    (hbuild : continueWith env st1 u args = Except.ok cont) :
    continueNow env st1 (fuel + 1) cont ctx
      = ([Event.unitCall u ctx args], Except.ok ((env u).body ctx args)) ∧
    ∀ c : Continuation Val, c.done = false → c.continuationId = cont.continuationId →
      c.args = none →
      continueNow env st1 (fuel + 1) c ctx
        = ([Event.unitCall u ctx []], Except.ok ((env u).body ctx [])) := by
  obtain ⟨-, -, hmeta, htable, -, -, -⟩ := canContinueWith_ok hreg
  unfold continueWith at hbuild
  by_cases ht : truthy (st1.meta u) = true
  · simp only [ht, if_true] at hbuild
    have hcont : cont =
        { done := false, continuationId := st1.meta u, args := some args } :=
      (Except.ok.injEq _ _ ▸ hbuild).symm
    have hne : st.config.getContinuationId f (env u).name ≠ "" := by
      rw [hmeta] at ht; exact truthy_some_iff.mp ht
    have hlk : st1.table.lookup (st.config.getContinuationId f (env u).name)
        = some u := by
      rw [htable]; simp
    constructor
    · have := continueNow_found env st1 cont ctx u
        (st.config.getContinuationId f (env u).name)
        fuel (by rw [hcont]) (by rw [hcont]; exact hmeta) hne hlk
      simpa [hcont] using this
    · intro c hcd hcid hca
      have := continueNow_found env st1 c ctx u
        (st.config.getContinuationId f (env u).name)
        fuel hcd (by rw [hcid, hcont]; exact hmeta) hne hlk
      simpa [hca] using this
  · simp [ht] at hbuild

/-- Witness for C1 at a concrete registration. -/
theorem claim1_witness :
    continueNow sampleEnv sampleSt (0 + 1) c1rec 5
      = ([Event.unitCall 0 5 [7]], Except.ok ((sampleEnv 0).body 5 [7])) :=
  (claim1_register_build_execute sampleEnv (initState Nat Nat) sampleSt 0 "a.ts" [7]
    c1rec 5 0 rfl rfl).1

/-- **C2**: executing a non-terminal record whose identifier is present (a
non-empty string) but absent from the registry invokes the configured
`functionNotFound` policy with the record and the context.  Under the default
configuration this raises `ContinuationNotFound` naming the missing
identifier.  Under a configured policy, a terminal redirect is returned as-is,
and a non-terminal redirect is executed recursively exactly like any other
continuation. -/
theorem claim2_not_found_recovery {Ctx Val : Type} (env : Nat → UnitDef Ctx Val)
    (st : LibState Ctx Val) (c : Continuation Val) (ctx : Ctx) (id : String)
    (fuel : Nat)
    (hdone : c.done = false) (hid : c.continuationId = some id) (hne : id ≠ "")
    (hlk : st.table.lookup id = none) :
    (st.config.functionNotFound = (defaultConfig Ctx Val).functionNotFound →
      continueNow env st (fuel + 1) c ctx
        = ([Event.notFoundCall c ctx],
           Except.error (JsError.continuationNotFound (some id)))) ∧
    ∀ redirect : Continuation Val,
      st.config.functionNotFound c ctx = Except.ok redirect →
      (redirect.done = true →
        continueNow env st (fuel + 1) c ctx
          = ([Event.notFoundCall c ctx], Except.ok redirect)) ∧
      (redirect.done = false →
        continueNow env st (fuel + 1) c ctx
          = (Event.notFoundCall c ctx :: (continueNow env st fuel redirect ctx).1,
             (continueNow env st fuel redirect ctx).2)) := by
  constructor
  · intro hcfg
    rw [continueNow_step, hdone, hid]
    simp [truthy_some_iff.mpr hne, hlk, hcfg, defaultConfig, hid]
  · intro redirect hred
    constructor
    · intro hrt
      rw [continueNow_step, hdone, hid]
      simp [truthy_some_iff.mpr hne, hlk, hred, hrt]
    · intro hrf
      rw [continueNow_step, hdone, hid]
      simp [truthy_some_iff.mpr hne, hlk, hred, hrf]

/-- Witness for C2: with the redirect policy above, executing a record with a
missing identifier redirects to the registered terminal-producing unit `0`
and yields the terminal record. -/
theorem claim2_witness :
    continueNow sampleEnv c2st (1 + 1)
      { done := false, continuationId := some "missing", args := none } 3
      = ([Event.notFoundCall
            { done := false, continuationId := some "missing", args := none } 3,
          Event.unitCall 0 3 []],
         Except.ok { done := true, continuationId := none, args := none }) :=
  (((claim2_not_found_recovery sampleEnv c2st
      { done := false, continuationId := some "missing", args := none } 3
      "missing" 1 rfl rfl (by decide) (by decide)).2
    { done := false, continuationId := sampleSt.meta 0, args := none }
    rfl).2 rfl).trans rfl

/-- **C3**: executing a record with `done = true`, or with `done = false` but
no identifier present, returns the terminal record immediately, invoking no
registered unit and not the recovery policy; executing an already-terminal
record is idempotent. -/
theorem claim3_terminal_guard {Ctx Val : Type} (env : Nat → UnitDef Ctx Val)
    (st : LibState Ctx Val) (c : Continuation Val) (ctx : Ctx) (fuel : Nat)
    (h : c.done = true ∨ c.continuationId = none) :
    continueNow env st (fuel + 1) c ctx = ([], Except.ok (dontContinue Val)) ∧
    continueNow env st (fuel + 1) (dontContinue Val) ctx
      = ([], Except.ok (dontContinue Val)) := by
  constructor
  · apply continueNow_terminal
    rcases h with h | h
    · exact Or.inl h
    · exact Or.inr (by rw [h]; rfl)
  · exact continueNow_terminal fuel (Or.inl rfl)

/-- Witness for C3 on the terminal record itself. -/
theorem claim3_witness :
    continueNow sampleEnv sampleSt (0 + 1)
      { done := true, continuationId := none, args := none } 2
      = ([], Except.ok (dontContinue Nat)) :=
  (claim3_terminal_guard sampleEnv sampleSt
    { done := true, continuationId := none, args := none } 2 0 (Or.inl rfl)).1

/-- **C4**: registering a unit that already carries identifier metadata fails
with `DuplicateRegistration` (and leaves the state unchanged); registering a
unit whose computed identifier is already mapped by the registry — as when two
distinct units are assigned the same string by the identifier policy — fails
with `IdentifierCollision` naming that identifier.  Both failures are thrown
errors, not silently swallowed. -/
theorem claim4_registration_failures {Ctx Val : Type} (env : Nat → UnitDef Ctx Val)
    (st : LibState Ctx Val) (fn : Nat) (f : String) :
    (truthy (st.meta fn) = true →
      canContinueWith env st fn f
        = (st, Except.error (JsError.duplicateRegistration (env fn).name f))) ∧
    (truthy (st.meta fn) = false →
      ∀ g : Nat,
        st.table.lookup (st.config.getContinuationId f (env fn).name) = some g →
        (canContinueWith env st fn f).2
          = Except.error (JsError.identifierCollision
              (st.config.getContinuationId f (env fn).name))) := by
  constructor
  · intro h1
    unfold canContinueWith
    simp [h1]
  · intro h1 g h2
    unfold canContinueWith
    simp [h1, h2]

/-- Witness for C4: re-registering unit `0` (already registered) throws
`DuplicateRegistration`; registering the distinct unit `1` — whose identifier
`a.ts#f` collides with unit `0`'s — throws `IdentifierCollision`. -/
theorem claim4_witness :
    canContinueWith sampleEnv sampleSt 0 "b.ts"
      = (sampleSt, Except.error (JsError.duplicateRegistration "f" "b.ts")) ∧
    (canContinueWith sampleEnv sampleSt 1 "a.ts").2
      = Except.error (JsError.identifierCollision "a.ts#f") :=
  ⟨(claim4_registration_failures sampleEnv sampleSt 0 "b.ts").1 (by decide),
   ((claim4_registration_failures sampleEnv sampleSt 1 "a.ts").2 (by decide)
      0 (by decide)).trans rfl⟩

/-- **C5**: `continueWith` fails with `UnregisteredUnit` naming the unit
exactly when the unit carries no (truthy) identifier metadata; when the
metadata is a non-empty identifier it succeeds and produces exactly the record
with `done = false`, that identifier, and the supplied argument list. -/
theorem claim5_build_record {Ctx Val : Type} (env : Nat → UnitDef Ctx Val)
    (st : LibState Ctx Val) (fn : Nat) (args : List Val) :
    (truthy (st.meta fn) = false →
      continueWith env st fn args
        = Except.error (JsError.unregisteredUnit (env fn).name)) ∧
    ∀ id : String, st.meta fn = some id → id ≠ "" →
      continueWith env st fn args
        = Except.ok { done := false, continuationId := some id, args := some args } := by
  constructor
  · intro h1
    unfold continueWith
    simp [h1]
  · intro id hmeta hne
    unfold continueWith
    rw [hmeta]
    simp [truthy_some_iff.mpr hne]

/-- Witness for C5: the unregistered unit `1` is refused; the registered
unit `0` yields exactly the expected record. -/
theorem claim5_witness :
    continueWith sampleEnv sampleSt 1 [1, 2]
      = Except.error (JsError.unregisteredUnit "f") ∧
    continueWith sampleEnv sampleSt 0 [1, 2]
      = Except.ok { done := false, continuationId := some "a.ts#f",
                    args := some [1, 2] } :=
  ⟨(claim5_build_record sampleEnv sampleSt 1 [1, 2]).1 (by decide),
   (claim5_build_record sampleEnv sampleSt 0 [1, 2]).2 "a.ts#f" (by decide)
     (by decide)⟩

/-- **C6**: a successful registration returns the very unit it was given,
attaches the computed identifier as its metadata, and makes the registry map
that identifier to the unit; a renewed registration attempt fails and leaves
the state — in particular the attached metadata — unchanged, so the identifier
is attached exactly once. -/
theorem claim6_registration_success {Ctx Val : Type} (env : Nat → UnitDef Ctx Val)
    (st st1 : LibState Ctx Val) (fn v : Nat) (f : String)
    (hne : st.config.getContinuationId f (env fn).name ≠ "")
    (hreg : canContinueWith env st fn f = (st1, Except.ok v)) :
    v = fn ∧
    st1.meta fn = some (st.config.getContinuationId f (env fn).name) ∧
    st1.table.lookup (st.config.getContinuationId f (env fn).name) = some fn ∧
    ∀ f2 : String, canContinueWith env st1 fn f2
      = (st1, Except.error (JsError.duplicateRegistration (env fn).name f2)) := by
  obtain ⟨-, hv, hmeta, htable, -, -, -⟩ := canContinueWith_ok hreg
  refine ⟨hv, hmeta, ?_, ?_⟩
  · rw [htable]; simp
  · intro f2
    have ht : truthy (st1.meta fn) = true := by
      rw [hmeta]; exact truthy_some_iff.mpr hne
    unfold canContinueWith
    simp [ht]

/-- Witness for C6 at the concrete registration of unit `0`. -/
theorem claim6_witness :
    (0 : Nat) = 0 ∧
    sampleSt.meta 0 = some "a.ts#f" ∧
    sampleSt.table.lookup "a.ts#f" = some 0 ∧
    ∀ f2 : String, canContinueWith sampleEnv sampleSt 0 f2
      = (sampleSt, Except.error (JsError.duplicateRegistration "f" f2)) :=
  claim6_registration_success sampleEnv (initState Nat Nat) sampleSt 0 0 "a.ts"
    (by decide) rfl

/-- **C7**: the registry is append-only — an entry present in the table keeps
its mapping across any further `canContinueWith` call (successful or failing)
and across `configureContinue`; `continueWith`, `continueNow` and
`dontContinue` do not touch the state at all (in this embedding they take the
state only as an argument and return none). -/
theorem claim7_table_append_only {Ctx Val : Type} (env : Nat → UnitDef Ctx Val)
    (st : LibState Ctx Val) (id : String) (u : Nat)
    (h : st.table.lookup id = some u) :
    (∀ fn f, ((canContinueWith env st fn f).1).table.lookup id = some u) ∧
    ∀ pc : PartialConfig Ctx Val,
      (configureContinue st pc).table.lookup id = some u := by
  refine ⟨?_, fun _ => h⟩
  intro fn f
  unfold canContinueWith
  by_cases h1 : truthy (st.meta fn) = true
  · simp [h1, h]
  · simp only [Bool.not_eq_true] at h1
    by_cases h2 :
        (st.table.lookup (st.config.getContinuationId f (env fn).name)).isSome = true
    · simp [h1, h2, h]
    · have hne : id ≠ st.config.getContinuationId f (env fn).name := by
        intro he
        rw [← he, h] at h2
        simp at h2
      simp [h1, h2, h, List.lookup, beq_eq_false_iff_ne.mpr hne]

/-- Witness for C7: the entry for unit `0` survives a further (successful)
registration of unit `1` from another file, and a reconfiguration. -/
theorem claim7_witness :
    ((canContinueWith sampleEnv sampleSt 1 "b.ts").1).table.lookup "a.ts#f"
      = some 0 ∧
    (configureContinue sampleSt
        ({} : PartialConfig Nat Nat)).table.lookup "a.ts#f" = some 0 :=
  ⟨(claim7_table_append_only sampleEnv sampleSt "a.ts#f" 0 (by decide)).1 1 "b.ts",
   (claim7_table_append_only sampleEnv sampleSt "a.ts#f" 0 (by decide)).2
     ({} : PartialConfig Nat Nat)⟩

/-- **C8**: parsing back the serialization of a non-terminal record yields a
record that `continueNow` treats identically to the original, for every
environment, state, fuel and context: the record's meaning survives a
store/reload round trip unchanged. -/
theorem claim8_round_trip (c : Continuation JValue) (hc : c.done = false) :
    ∃ c2 : Continuation JValue,
      parseContinuation (serializeContinuation c) = some c2 ∧
      ∀ (Ctx : Type) (env : Nat → UnitDef Ctx JValue) (st : LibState Ctx JValue)
        (fuel : Nat) (ctx : Ctx),
        continueNow env st fuel c2 ctx = continueNow env st fuel c ctx := by
  refine ⟨c, ?_, fun _ _ _ _ _ => rfl⟩
  obtain ⟨d, cid, args⟩ := c
  cases cid <;> cases args <;> rfl

/-- Witness for C8 at a concrete non-terminal record. -/
theorem claim8_witness :
    ∃ c2 : Continuation JValue,
      parseContinuation (serializeContinuation
        { done := false, continuationId := some "a.ts#f",
          args := some [JValue.num 3] }) = some c2 ∧
      ∀ (Ctx : Type) (env : Nat → UnitDef Ctx JValue) (st : LibState Ctx JValue)
        (fuel : Nat) (ctx : Ctx),
        continueNow env st fuel c2 ctx
          = continueNow env st fuel
              { done := false, continuationId := some "a.ts#f",
                args := some [JValue.num 3] } ctx :=
  claim8_round_trip
    { done := false, continuationId := some "a.ts#f", args := some [JValue.num 3] }
    rfl

/-- **C9**: registration is not atomic on an identifier collision: when
registering `g` fails because its computed identifier is already mapped to a
previously registered unit `u0`, the identifier metadata has already been
attached to `g` and the table is unchanged (so `g` was not added); a later
`continueWith(g, ...)` therefore succeeds, and executing the resulting record
invokes `u0`, the earlier-registered unit, not `g` and not the not-found
policy. -/
theorem claim9_collision_not_atomic {Ctx Val : Type} (env : Nat → UnitDef Ctx Val)
    (st : LibState Ctx Val) (g u0 : Nat) (f : String) (args : List Val)
    (ctx : Ctx) (fuel : Nat)
    (hmeta : truthy (st.meta g) = false)
    (hne : st.config.getContinuationId f (env g).name ≠ "")
    (hlk : st.table.lookup (st.config.getContinuationId f (env g).name) = some u0) :
    ∃ st1 : LibState Ctx Val,
      canContinueWith env st g f
        = (st1, Except.error (JsError.identifierCollision
            (st.config.getContinuationId f (env g).name))) ∧
      st1.meta g = some (st.config.getContinuationId f (env g).name) ∧
      st1.table = st.table ∧
      continueWith env st1 g args
        = Except.ok
            { done := false
              continuationId := some (st.config.getContinuationId f (env g).name)
              args := some args } ∧
      continueNow env st1 (fuel + 1)
        { done := false
          continuationId := some (st.config.getContinuationId f (env g).name)
          args := some args } ctx
        = ([Event.unitCall u0 ctx args], Except.ok ((env u0).body ctx args)) := by
  have hcoll := canContinueWith_collision env st g f hmeta
    (by rw [hlk]; rfl)
  refine ⟨_, hcoll, ?_, rfl, ?_, ?_⟩
  · simp
  · unfold continueWith
    simp [truthy_some_iff.mpr hne]
  · exact continueNow_found env _ _ ctx u0 _ fuel rfl rfl hne hlk

/-- Witness for C9: after the collision on registering unit `1`, building a
continuation for `1` succeeds and executing it runs unit `0`'s body. -/
theorem claim9_witness :
    ∃ st1 : LibState Nat Nat,
      canContinueWith sampleEnv sampleSt 1 "a.ts"
        = (st1, Except.error (JsError.identifierCollision "a.ts#f")) ∧
      st1.meta 1 = some "a.ts#f" ∧
      st1.table = sampleSt.table ∧
      continueWith sampleEnv st1 1 [9]
        = Except.ok { done := false, continuationId := some "a.ts#f",
                      args := some [9] } ∧
      continueNow sampleEnv st1 (0 + 1)
        { done := false, continuationId := some "a.ts#f", args := some [9] } 4
        = ([Event.unitCall 0 4 [9]], Except.ok ((sampleEnv 0).body 4 [9])) :=
  claim9_collision_not_atomic sampleEnv sampleSt 1 0 "a.ts" [9] 4 0
    (by decide) (by decide) (by decide)

/-- **C10**: executing a record with `done = false` and the empty string as
identifier returns the terminal record with no unit and no recovery-policy
invocation, for every state — even one whose registry has an entry under the
empty-string identifier: the empty string is normalized to terminal exactly
like an absent identifier. -/
theorem claim10_empty_identifier {Ctx Val : Type} (env : Nat → UnitDef Ctx Val)
    (st : LibState Ctx Val) (args : Option (List Val)) (ctx : Ctx) (fuel : Nat) :
    continueNow env st (fuel + 1)
      { done := false, continuationId := some "", args := args } ctx
      = ([], Except.ok (dontContinue Val)) :=
  continueNow_terminal fuel (Or.inr rfl)

end ContinueJs
